import Mathlib

/-!
Shallow embedding of the dual-backend Task CRUD service
(`api/src/routes/mysql.routes.js`, `api/src/routes/postgresql.routes.js`,
`api/src/index.js`, schemas `database/mysql/init.sql` and
`database/postgresql/init.sql`).

JavaScript request bodies are modelled as three optional JSON values
(absent = `undefined`).  The two route handlers are translated branch by
branch; the database is a list of rows together with the auto-increment
counter and a logical clock supplying `CURRENT_TIMESTAMP` values
(strictly increasing across statements).  Where the two backends differ
in the source they differ here:

* Both schemas restrict `status` to the ENUM
  (`ENUM('pending','in_progress','completed')` in MySQL, the custom
  `task_status` type in PostgreSQL); the column is nullable in both.  An
  UPDATE binding a non-null value outside the ENUM raises (MySQL strict
  mode / the PostgreSQL enum input conversion), which the handler's
  catch turns into a 500; a NULL binds fine.
* MySQL `updated_at TIMESTAMP ... ON UPDATE CURRENT_TIMESTAMP` refreshes
  `updated_at` on a matched UPDATE; PostgreSQL achieves the same through
  the `update_tasks_updated_at` BEFORE UPDATE trigger
  (`update_updated_at_column` sets `NEW.updated_at`), so its `RETURNING *`
  reports the refreshed row.  (MySQL leaves the column alone when an
  UPDATE sets only values identical to the current ones; no theorem
  below inspects `updated_at` on that corner.)
* MySQL compares the INT `id` column with the raw string parameter by
  numeric coercion of its leading digits; PostgreSQL raises an error on a
  non-integer literal, which the handler's catch turns into a 500.
* The MySQL create runs INSERT + SELECT (two pool calls); PostgreSQL uses
  a single `RETURNING *` query.  The PostgreSQL DELETE success body has
  the extra `deletedTask` field.
-/

namespace NodeTasks

/-- A JSON value as far as the handlers inspect one: the routes only ever
test truthiness and compare against the three status strings. -/
inductive JVal where
  | jnull
  | jstr (s : String)
  | jnum (n : Int)
  | jbool (b : Bool)
deriving DecidableEq, Repr

/-- JavaScript truthiness of a JSON value (`""`, `0`, `false`, `null` are
falsy). -/
def truthy : JVal → Bool
  | .jnull => false
  | .jstr s => !(s = "")
  | .jnum n => !(n = 0)
  | .jbool b => b

/-- A request body: each field is absent (`undefined`) or a JSON value. -/
structure ReqBody where
  title : Option JVal
  description : Option JVal
  status : Option JVal
deriving DecidableEq, Repr

/-- `!title` guard of the create handlers: absent or falsy. -/
def truthyOpt : Option JVal → Bool
  | none => false
  | some v => truthy v

/-- `const validStatuses = ['pending', 'in_progress', 'completed']`. -/
def validStatuses : List String := ["pending", "in_progress", "completed"]

/-- `validStatuses.includes(status)`; `includes` uses strict equality, so a
non-string never matches. -/
def isValidStatusVal : JVal → Bool
  | .jstr s => validStatuses.contains s
  | _ => false

/-- The guard `if (status && !validStatuses.includes(status))` shared by
both create and both update handlers.  An absent or falsy status passes. -/
def statusGuardFails : Option JVal → Bool
  | none => false
  | some v => truthy v && !(isValidStatusVal v)

/-- `` `Invalid status. Must be one of: ${validStatuses.join(', ')}` ``. -/
def invalidStatusMsg : String :=
  "Invalid status. Must be one of: " ++ String.intercalate ", " validStatuses

/-- JavaScript `v || dflt` applied to an optional field (`undefined` and
falsy values both fall through to the default). -/
def jsOrElse (v : Option JVal) (dflt : JVal) : JVal :=
  match v with
  | some x => if truthy x then x else dflt
  | none => dflt

/-- The columns of the dynamic UPDATE builder. -/
inductive Col where
  | title
  | description
  | status
deriving DecidableEq, Repr

/-- The `updates`/`values` arrays built by both PUT handlers: one
assignment per body field that is not `undefined`, in source order. -/
def updateAssignments (b : ReqBody) : List (Col × JVal) :=
  (match b.title with
    | some v => [(Col.title, v)]
    | none => []) ++
  (match b.description with
    | some v => [(Col.description, v)]
    | none => []) ++
  (match b.status with
    | some v => [(Col.status, v)]
    | none => [])

/-- A row of the `tasks` table.  The handlers never type-check body
values, so the mutable columns hold arbitrary JSON values. -/
structure Task where
  id : Nat
  title : JVal
  description : JVal
  status : JVal
  created_at : Nat
  updated_at : Nat
deriving DecidableEq, Repr

/-- Database state: rows in insertion order, the AUTO_INCREMENT/SERIAL
counter, and a logical clock read by `CURRENT_TIMESTAMP`.  The clock
ticks after every write statement, so later statements see a strictly
larger time. -/
structure Db where
  rows : List Task
  nextId : Nat
  clock : Nat
deriving DecidableEq, Repr

/-- Numeric value of a list of decimal digit characters. -/
def digitsVal (cs : List Char) : Nat :=
  cs.foldl (fun a c => a * 10 + (c.toNat - '0'.toNat)) 0

/-- MySQL's coercion of a string parameter compared against the INT `id`
column: the leading (optionally signed) digit prefix, `0` when there is
none.  `'invalid'` coerces to `0`. -/
def mysqlCoerceId (s : String) : Int :=
  match s.data with
  | '-' :: rest => -(Int.ofNat (digitsVal (rest.takeWhile Char.isDigit)))
  | cs => Int.ofNat (digitsVal (cs.takeWhile Char.isDigit))

/-- PostgreSQL's integer input parser for the `$1` parameter of
`WHERE id = $1`: an optionally signed all-digit string; anything else
raises `invalid input syntax for type integer`. -/
def pgParseId (s : String) : Option Int :=
  match s.data with
  | '-' :: rest =>
      if rest ≠ [] && rest.all Char.isDigit then
        some (-(Int.ofNat (digitsVal rest)))
      else none
  | cs =>
      if cs ≠ [] && cs.all Char.isDigit then
        some (Int.ofNat (digitsVal cs))
      else none

/-- `SELECT * FROM tasks WHERE id = <i>` (first matching row). -/
def Db.findRow (db : Db) (i : Int) : Option Task :=
  db.rows.find? (fun t => (t.id : Int) == i)

/-- Greater-or-equal on `created_at`: the order of
`ORDER BY created_at DESC`. -/
def createdGE (x y : Task) : Prop := y.created_at ≤ x.created_at

instance : DecidableRel createdGE := fun x y => Nat.decLe y.created_at x.created_at

instance : IsTotal Task createdGE :=
  ⟨fun x y => Nat.le_total y.created_at x.created_at⟩

instance : IsTrans Task createdGE :=
  ⟨fun _ _ _ h h' => Nat.le_trans h' h⟩

/-- `SELECT * FROM tasks ORDER BY created_at DESC`. -/
def listAll (db : Db) : List Task :=
  List.insertionSort createdGE db.rows

/-- `INSERT INTO tasks (title, description, status) VALUES (...)`: the
backend assigns `id` and sets both timestamps to the current time. -/
def Db.insertTask (db : Db) (t : Task) : Db :=
  { rows := db.rows ++ [t], nextId := db.nextId + 1, clock := db.clock + 1 }

/-- The row the create handlers insert:
`[title, description || null, status || 'pending']` plus the
backend-assigned `id`, `created_at` and `updated_at`. -/
def newTask (db : Db) (b : ReqBody) : Task :=
  { id := db.nextId
    title := (b.title).getD .jnull
    description := jsOrElse b.description .jnull
    status := jsOrElse b.status (.jstr "pending")
    created_at := db.clock
    updated_at := db.clock }

/-- Apply the dynamic SET clause to one row. -/
def applyAssignments (asgs : List (Col × JVal)) (t : Task) : Task :=
  asgs.foldl
    (fun u a =>
      match a.1 with
      | .title => { u with title := a.2 }
      | .description => { u with description := a.2 }
      | .status => { u with status := a.2 })
    t

/-- Replace the row with the given id and tick the clock. -/
def Db.replaceRow (db : Db) (i : Int) (t' : Task) : Db :=
  { db with
      rows := db.rows.map (fun u => if (u.id : Int) == i then t' else u)
      clock := db.clock + 1 }

/-- The JSON envelope a handler sends: HTTP status plus the optional
fields of the body.  `dataTask`/`dataList` are the two shapes of `data`;
at most one is present. -/
structure Response where
  httpStatus : Nat
  success : Bool
  dataTask : Option Task
  dataList : Option (List Task)
  countVal : Option Nat
  errorMsg : Option String
  messageMsg : Option String
  deletedTaskVal : Option Task
deriving DecidableEq, Repr

/-- An empty envelope to fill in. -/
def Response.base : Response :=
  { httpStatus := 200, success := true, dataTask := none, dataList := none
    countVal := none, errorMsg := none, messageMsg := none,
    deletedTaskVal := none }

/-- `res.status(400).json({ success: false, error: msg })`. -/
def valErrResp (msg : String) : Response :=
  { Response.base with httpStatus := 400, success := false,
                       errorMsg := some msg }

/-- `res.status(404).json({ success: false, error: 'Task not found' })`. -/
def notFoundResp : Response :=
  { Response.base with httpStatus := 404, success := false,
                       errorMsg := some "Task not found" }

/-- The catch branch:
`res.status(500).json({ success: false, error: what, message: error.message })`.
The thrown error's text is modelled by a fixed diagnostic string. -/
def err500Resp (what : String) : Response :=
  { Response.base with httpStatus := 500, success := false,
                       errorMsg := some what,
                       messageMsg := some "query failed" }

/-- What one handler invocation produced: the HTTP response, the database
afterwards, and how many `pool.query` calls it made. -/
structure Outcome where
  resp : Response
  db : Db
  queries : Nat
deriving DecidableEq, Repr

/-! ### Route handlers

Each handler takes the database, the request pieces it reads, and a flag
`qfail` modelling the pool throwing on its first query (lost
connectivity); validation happens before any pool call, exactly as in
the source. -/

/-- `GET /api/mysql/tasks/:id`: the raw path parameter goes straight into
`pool.query`; MySQL coerces it against the INT column. -/
def mysqlGetById (db : Db) (idStr : String) (qfail : Bool) : Outcome :=
  if qfail then ⟨err500Resp "Failed to fetch task", db, 1⟩
  else
    match db.findRow (mysqlCoerceId idStr) with
    | none => ⟨notFoundResp, db, 1⟩
    | some t => ⟨{ Response.base with dataTask := some t }, db, 1⟩

/-- `GET /api/postgresql/tasks/:id`: a non-integer parameter makes the
query itself raise, which the catch converts to a 500. -/
def pgGetById (db : Db) (idStr : String) (qfail : Bool) : Outcome :=
  if qfail then ⟨err500Resp "Failed to fetch task", db, 1⟩
  else
    match pgParseId idStr with
    | none => ⟨err500Resp "Failed to fetch task", db, 1⟩
    | some i =>
      match db.findRow i with
      | none => ⟨notFoundResp, db, 1⟩
      | some t => ⟨{ Response.base with dataTask := some t }, db, 1⟩

/-- `res.status(201).json({ success, data, message })`. -/
def createdResp (t : Task) : Response :=
  { Response.base with httpStatus := 201, dataTask := some t,
                       messageMsg := some "Task created successfully" }

/-- `POST /api/mysql/tasks`: validate title, validate status, INSERT,
then re-SELECT the new row (two pool calls). -/
def mysqlCreate (db : Db) (b : ReqBody) (qfail : Bool) : Outcome :=
  if !(truthyOpt b.title) then ⟨valErrResp "Title is required", db, 0⟩
  else if statusGuardFails b.status then ⟨valErrResp invalidStatusMsg, db, 0⟩
  else if qfail then ⟨err500Resp "Failed to create task", db, 1⟩
  else
    let t := newTask db b
    ⟨createdResp t, db.insertTask t, 2⟩

/-- `POST /api/postgresql/tasks`: same validation, single
`INSERT ... RETURNING *` call. -/
def pgCreate (db : Db) (b : ReqBody) (qfail : Bool) : Outcome :=
  if !(truthyOpt b.title) then ⟨valErrResp "Title is required", db, 0⟩
  else if statusGuardFails b.status then ⟨valErrResp invalidStatusMsg, db, 0⟩
  else if qfail then ⟨err500Resp "Failed to create task", db, 1⟩
  else
    let t := newTask db b
    ⟨createdResp t, db.insertTask t, 1⟩

/-- `res.json({ success, data, message })` of the PUT handlers. -/
def updatedResp (t : Task) : Response :=
  { Response.base with dataTask := some t,
                       messageMsg := some "Task updated successfully" }

/-- Whether the nullable status ENUM column accepts a bound value: NULL
or one of the three enumerated strings; anything else makes the
statement raise on both backends. -/
def statusColAccepts : JVal → Bool
  | .jnull => true
  | v => isValidStatusVal v

/-- Whether every status assignment of a SET clause binds an
ENUM-acceptable value (non-status assignments are unconstrained here:
title and description columns accept the driver's stringification). -/
def updateStatusOk (asgs : List (Col × JVal)) : Bool :=
  asgs.all (fun a => !(a.1 == Col.status) || statusColAccepts a.2)

/-- `PUT /api/mysql/tasks/:id`: status guard, dynamic SET clause, empty
check, UPDATE, then re-SELECT.  A SET value the ENUM column rejects makes
the statement raise (strict mode) → 500; otherwise
`ON UPDATE CURRENT_TIMESTAMP` in init.sql refreshes `updated_at` on the
matched row. -/
def mysqlUpdate (db : Db) (idStr : String) (b : ReqBody) (qfail : Bool) :
    Outcome :=
  if statusGuardFails b.status then ⟨valErrResp invalidStatusMsg, db, 0⟩
  else
    let asgs := updateAssignments b
    if asgs.isEmpty then ⟨valErrResp "No fields to update", db, 0⟩
    else if qfail then ⟨err500Resp "Failed to update task", db, 1⟩
    else if !(updateStatusOk asgs) then
      ⟨err500Resp "Failed to update task", db, 1⟩
    else
      let i := mysqlCoerceId idStr
      match db.findRow i with
      | none => ⟨notFoundResp, db, 1⟩
      | some t =>
        let t' := { applyAssignments asgs t with updated_at := db.clock }
        ⟨updatedResp t', db.replaceRow i t', 2⟩

/-- `PUT /api/postgresql/tasks/:id`: same validation, single
`UPDATE ... RETURNING *`.  A parameter the `task_status` ENUM rejects
raises at bind time → 500; on success the `update_tasks_updated_at`
BEFORE UPDATE trigger (database/postgresql/init.sql) sets
`NEW.updated_at = CURRENT_TIMESTAMP`, so `RETURNING *` reports the
refreshed row. -/
def pgUpdate (db : Db) (idStr : String) (b : ReqBody) (qfail : Bool) :
    Outcome :=
  if statusGuardFails b.status then ⟨valErrResp invalidStatusMsg, db, 0⟩
  else
    let asgs := updateAssignments b
    if asgs.isEmpty then ⟨valErrResp "No fields to update", db, 0⟩
    else if qfail then ⟨err500Resp "Failed to update task", db, 1⟩
    else
      match pgParseId idStr with
      | none => ⟨err500Resp "Failed to update task", db, 1⟩
      | some i =>
        if !(updateStatusOk asgs) then
          ⟨err500Resp "Failed to update task", db, 1⟩
        else
          match db.findRow i with
          | none => ⟨notFoundResp, db, 1⟩
          | some t =>
            let t' := { applyAssignments asgs t with updated_at := db.clock }
            ⟨updatedResp t', db.replaceRow i t', 1⟩

/-- The `GET /health` response: HTTP status and the two per-backend
`connected`/`disconnected` strings. -/
structure HealthResp where
  httpStatus : Nat
  overall : String
  mysqlField : String
  postgresField : String
deriving DecidableEq, Repr

/-- `GET /health` (mode-dependent revision): in production only the
PostgreSQL probe is required, in development both are. -/
def checkHealth (isProduction mysqlStatus postgresStatus : Bool) : HealthResp :=
  let isHealthy := if isProduction then postgresStatus
                   else (mysqlStatus && postgresStatus)
  { httpStatus := if isHealthy then 200 else 503
    overall := if isHealthy then "healthy" else "unhealthy"
    mysqlField := if mysqlStatus then "connected" else "disconnected"
    postgresField := if postgresStatus then "connected" else "disconnected" }

/-- `GET /health` (earlier revision): both probes always required. -/
def checkHealthLegacy (mysqlStatus postgresStatus : Bool) : HealthResp :=
  let isHealthy := mysqlStatus && postgresStatus
  { httpStatus := if isHealthy then 200 else 503
    overall := if isHealthy then "healthy" else "unhealthy"
    mysqlField := if mysqlStatus then "connected" else "disconnected"
    postgresField := if postgresStatus then "connected" else "disconnected" }

/-! ### Sample data for concrete counterexamples and witnesses -/

/-- A sample persisted row. -/
def task1 : Task :=
  { id := 1, title := .jstr "Set up project", description := .jnull,
    status := .jstr "pending", created_at := 0, updated_at := 0 }

/-- A second sample row, created later than `task1`. -/
def task2 : Task :=
  { id := 2, title := .jstr "Create API endpoints",
    description := .jstr "Build RESTful API",
    status := .jstr "in_progress", created_at := 1, updated_at := 1 }

/-- A database holding just `task1`. -/
def db1 : Db := { rows := [task1], nextId := 2, clock := 5 }

/-- A database holding `task1` and `task2`. -/
def db2 : Db := { rows := [task1, task2], nextId := 3, clock := 5 }

/-- A PUT body whose only field is the empty-string status. -/
def emptyStatusBody : ReqBody := { title := none, description := none, status := some (.jstr "") }

/-- A PUT body whose only field is a null status. -/
def nullStatusBody : ReqBody := { title := none, description := none, status := some .jnull }

/-- A PUT/POST body with no recognised field at all. -/
def emptyBody : ReqBody := { title := none, description := none, status := none }

/-- A PUT body that only changes the title. -/
def titleOnlyBody : ReqBody :=
  { title := some (.jstr "New title"), description := none, status := none }

/-- A POST body with a valid title and the empty string as status. -/
def falsyStatusCreateBody : ReqBody :=
  { title := some (.jstr "x"), description := none, status := some (.jstr "") }

/-- A POST body whose title is the empty string. -/
def falsyTitleBody : ReqBody :=
  { title := some (.jstr ""), description := none, status := none }

/-- A POST body with a valid title and a truthy invalid status. -/
def invalidStatusCreateBody : ReqBody :=
  { title := some (.jstr "Task"), description := none,
    status := some (.jstr "invalid_status") }

/-- A POST body with only a title. -/
def buyMilkBody : ReqBody :=
  { title := some (.jstr "Buy milk"), description := none, status := none }

/-! ### Theorems -/

/-- C1 (counterexample): a PUT body whose status is null — a value
outside {pending, in_progress, completed} — is not rejected: both
handlers answer 200, issue a query, and NULL is persisted as the status
of task 1 (the status column is nullable in both schemas, so the
database accepts the bind). -/
theorem statusValidationBypassedByNullStatus :
    isValidStatusVal .jnull = false ∧
    (pgUpdate db1 "1" nullStatusBody false).resp.httpStatus = 200 ∧
    (pgUpdate db1 "1" nullStatusBody false).queries = 1 ∧
    ((pgUpdate db1 "1" nullStatusBody false).db.findRow 1).map
        (fun t => t.status) = some .jnull ∧
    (mysqlUpdate db1 "1" nullStatusBody false).resp.httpStatus = 200 ∧
    ((mysqlUpdate db1 "1" nullStatusBody false).db.findRow 1).map
        (fun t => t.status) = some .jnull := by
  decide

/-- C1 (amended): every create or update request whose body carries a
truthy status value outside the three enumerated values is rejected with
400 before any pool call, on both backends, leaving the database
untouched. -/
theorem truthyInvalidStatusAlwaysRejected
    (db : Db) (b : ReqBody) (idStr : String) (qfail : Bool) (v : JVal)
    (hv : b.status = some v) (ht : truthy v = true)
    (hbad : isValidStatusVal v = false) :
    ((mysqlCreate db b qfail).resp.httpStatus = 400 ∧
      (mysqlCreate db b qfail).queries = 0 ∧ (mysqlCreate db b qfail).db = db) ∧
    ((pgCreate db b qfail).resp.httpStatus = 400 ∧
      (pgCreate db b qfail).queries = 0 ∧ (pgCreate db b qfail).db = db) ∧
    ((mysqlUpdate db idStr b qfail).resp.httpStatus = 400 ∧
      (mysqlUpdate db idStr b qfail).queries = 0 ∧
      (mysqlUpdate db idStr b qfail).db = db) ∧
    ((pgUpdate db idStr b qfail).resp.httpStatus = 400 ∧
      (pgUpdate db idStr b qfail).queries = 0 ∧
      (pgUpdate db idStr b qfail).db = db) := by
  have hg : statusGuardFails b.status = true := by
    rw [hv]; simp [statusGuardFails, ht, hbad]
  refine ⟨?_, ?_, ?_, ?_⟩
  · by_cases hT : truthyOpt b.title = true <;>
      simp [mysqlCreate, hg, hT, valErrResp, Response.base]
  · by_cases hT : truthyOpt b.title = true <;>
      simp [pgCreate, hg, hT, valErrResp, Response.base]
  · simp [mysqlUpdate, hg, valErrResp, Response.base]
  · simp [pgUpdate, hg, valErrResp, Response.base]

/-- C1 (witness): the amended rejection at a concrete invalid status. -/
theorem truthyInvalidStatusAlwaysRejected_witness :
    (mysqlCreate db1 invalidStatusCreateBody false).resp.httpStatus = 400 ∧
    (mysqlCreate db1 invalidStatusCreateBody false).queries = 0 ∧
    (mysqlCreate db1 invalidStatusCreateBody false).db = db1 :=
  (truthyInvalidStatusAlwaysRejected db1 invalidStatusCreateBody "1" false
    (.jstr "invalid_status") (by decide) (by decide) (by decide)).1

/-- C2 (code evaluated at the failing input): for `GET /tasks/invalid`
both handlers do call the pool, and neither answers 400 — MySQL coerces
the id to 0 and answers 404, PostgreSQL's query raises and the handler
answers 500.  The repository's own test expects 400 here. -/
theorem invalidIdReachesPoolNot400 :
    (mysqlGetById db1 "invalid" false).queries = 1 ∧
    (mysqlGetById db1 "invalid" false).resp.httpStatus = 404 ∧
    (pgGetById db1 "invalid" false).queries = 1 ∧
    (pgGetById db1 "invalid" false).resp.httpStatus = 500 := by
  decide

/-- C4 (counterexample): the body `{status: ""}` supplies the non-empty
subset {status}, passes the handlers' truthiness-guarded validation, but
the bound value fails the status ENUM on both backends: the request ends
500, the row is untouched and `updated_at` does not increase. -/
theorem enumRejectedUpdateLeavesRowUnchanged :
    (updateAssignments emptyStatusBody).isEmpty = false ∧
    (pgUpdate db1 "1" emptyStatusBody false).resp.httpStatus = 500 ∧
    (pgUpdate db1 "1" emptyStatusBody false).queries = 1 ∧
    (pgUpdate db1 "1" emptyStatusBody false).db = db1 ∧
    ((pgUpdate db1 "1" emptyStatusBody false).db.findRow 1).map
        (fun t => t.updated_at) = some task1.updated_at ∧
    (mysqlUpdate db1 "1" emptyStatusBody false).resp.httpStatus = 500 ∧
    (mysqlUpdate db1 "1" emptyStatusBody false).db = db1 := by
  decide

/-- C4 (amended): for an update whose non-empty field subset carries
schema-accepted values (any supplied status one of the three enumerated
strings), resolving to an existing row which the assignments actually
modify: the generated SET clause contains exactly the supplied columns,
both backends answer 200 with the updated row, fields outside the subset
(and `id`, `created_at`) are unchanged, and `updated_at` is refreshed to
the current clock, strictly above its previous value.  (The
actually-modifies hypothesis keeps the MySQL side inside the territory
where `ON UPDATE CURRENT_TIMESTAMP` refreshes the column.) -/
theorem updateFrameAndTimestampRefresh
    (db : Db) (b : ReqBody) (idStr : String) (i : Int) (t : Task)
    (hpg : pgParseId idStr = some i) (hmy : mysqlCoerceId idStr = i)
    (hne : (updateAssignments b).isEmpty = false)
    (hsv : ∀ v, b.status = some v → isValidStatusVal v = true)
    (hfind : db.findRow i = some t)
    (hch : applyAssignments (updateAssignments b) t ≠ t)
    (hpast : t.updated_at < db.clock) :
    (((updateAssignments b).map Prod.fst).contains Col.title
        = b.title.isSome ∧
      ((updateAssignments b).map Prod.fst).contains Col.description
        = b.description.isSome ∧
      ((updateAssignments b).map Prod.fst).contains Col.status
        = b.status.isSome) ∧
    ((mysqlUpdate db idStr b false).resp.httpStatus = 200 ∧
      (mysqlUpdate db idStr b false).resp.dataTask =
        some { applyAssignments (updateAssignments b) t with
                 updated_at := db.clock } ∧
      (pgUpdate db idStr b false).resp.httpStatus = 200 ∧
      (pgUpdate db idStr b false).resp.dataTask =
        some { applyAssignments (updateAssignments b) t with
                 updated_at := db.clock }) ∧
    ((b.title = none →
        (applyAssignments (updateAssignments b) t).title = t.title) ∧
      (b.description = none →
        (applyAssignments (updateAssignments b) t).description
          = t.description) ∧
      (b.status = none →
        (applyAssignments (updateAssignments b) t).status = t.status) ∧
      (applyAssignments (updateAssignments b) t).id = t.id ∧
      (applyAssignments (updateAssignments b) t).created_at
        = t.created_at) ∧
    t.updated_at <
      ({ applyAssignments (updateAssignments b) t with
           updated_at := db.clock } : Task).updated_at := by
  have hacc : ∀ v, b.status = some v → statusColAccepts v = true := by
    intro v hb
    have hv := hsv v hb
    cases v <;> simp_all [statusColAccepts, isValidStatusVal]
  have hg : statusGuardFails b.status = false := by
    cases hb : b.status with
    | none => rfl
    | some v => simp [statusGuardFails, hsv v hb]
  have hTS : (Col.title == Col.status) = false := rfl
  have hDS : (Col.description == Col.status) = false := rfl
  have hSS : (Col.status == Col.status) = true := rfl
  have hok : updateStatusOk (updateAssignments b) = true := by
    cases hb : b.status with
    | none =>
        unfold updateStatusOk updateAssignments
        rw [hb]
        cases b.title <;> cases b.description <;> simp [hTS, hDS]
    | some v =>
        unfold updateStatusOk updateAssignments
        rw [hb]
        cases b.title <;> cases b.description <;>
          simp [hTS, hDS, hSS, hacc v hb]
  refine ⟨?_, ⟨?_, ?_, ?_, ?_⟩, ?_, ?_⟩
  · obtain ⟨bt, bd, bs⟩ := b
    cases bt <;> cases bd <;> cases bs <;> simp [updateAssignments]
  · simp [mysqlUpdate, hg, hne, hok, hmy, hfind, updatedResp,
          Response.base]
  · simp [mysqlUpdate, hg, hne, hok, hmy, hfind, updatedResp,
          Response.base]
  · simp [pgUpdate, hg, hne, hok, hpg, hfind, updatedResp,
          Response.base]
  · simp [pgUpdate, hg, hne, hok, hpg, hfind, updatedResp,
          Response.base]
  · obtain ⟨bt, bd, bs⟩ := b
    cases bt <;> cases bd <;> cases bs <;>
      simp [updateAssignments, applyAssignments]
  · simpa using hpast

/-- C4 (witness): the amended frame-and-refresh property at a concrete
title-only update of task 1. -/
theorem updateFrameAndTimestampRefresh_witness :
    (mysqlUpdate db1 "1" titleOnlyBody false).resp.httpStatus = 200 ∧
    (pgUpdate db1 "1" titleOnlyBody false).resp.httpStatus = 200 ∧
    task1.updated_at <
      ({ applyAssignments (updateAssignments titleOnlyBody) task1 with
           updated_at := db1.clock } : Task).updated_at := by
  have H := updateFrameAndTimestampRefresh db1 titleOnlyBody "1" 1 task1
    (by decide) (by decide) (by decide)
    (fun v hv => Option.noConfusion hv) (by decide) (by decide) (by decide)
  exact ⟨H.2.1.1, H.2.1.2.2.1, H.2.2.2⟩

/-- C5: a PUT whose body has none of the three fields is answered 400
with error "No fields to update" by both handlers, with no pool call and
the database unchanged. -/
theorem emptyUpdateRejectedBeforePool
    (db : Db) (idStr : String) (qfail : Bool) (b : ReqBody)
    (h1 : b.title = none) (h2 : b.description = none) (h3 : b.status = none) :
    mysqlUpdate db idStr b qfail = ⟨valErrResp "No fields to update", db, 0⟩ ∧
    pgUpdate db idStr b qfail = ⟨valErrResp "No fields to update", db, 0⟩ := by
  obtain ⟨bt, bd, bs⟩ := b
  simp only at h1 h2 h3
  subst h1; subst h2; subst h3
  exact ⟨rfl, rfl⟩

/-- C5 (witness): the empty-body rejection at a concrete state. -/
theorem emptyUpdateRejectedBeforePool_witness :
    mysqlUpdate db1 "1" emptyBody false =
      ⟨valErrResp "No fields to update", db1, 0⟩ ∧
    pgUpdate db1 "1" emptyBody false =
      ⟨valErrResp "No fields to update", db1, 0⟩ :=
  emptyUpdateRejectedBeforePool db1 "1" false emptyBody rfl rfl rfl

/-- C6 (counterexample): a POST whose status is the empty string — a
value outside the enumerated set — is not rejected: both backends answer
201, execute the INSERT, and the row count grows by one. -/
theorem falsyStatusCreateInsertsRow :
    isValidStatusVal (.jstr "") = false ∧
    (mysqlCreate db1 falsyStatusCreateBody false).resp.httpStatus = 201 ∧
    (mysqlCreate db1 falsyStatusCreateBody false).queries = 2 ∧
    (mysqlCreate db1 falsyStatusCreateBody false).db.rows.length =
      db1.rows.length + 1 ∧
    (pgCreate db1 falsyStatusCreateBody false).resp.httpStatus = 201 ∧
    (pgCreate db1 falsyStatusCreateBody false).db.rows.length =
      db1.rows.length + 1 := by
  decide

/-- C6 (amended): a POST whose body carries a truthy status value outside
the enumerated set is answered 400 with no INSERT and an unchanged row
count on both backends; when the title is also truthy the error names
the allowed values. -/
theorem createTruthyInvalidStatusRejected
    (db : Db) (b : ReqBody) (qfail : Bool) (v : JVal)
    (hv : b.status = some v) (ht : truthy v = true)
    (hbad : isValidStatusVal v = false) :
    ((mysqlCreate db b qfail).resp.httpStatus = 400 ∧
      (mysqlCreate db b qfail).queries = 0 ∧
      (mysqlCreate db b qfail).db.rows = db.rows) ∧
    ((pgCreate db b qfail).resp.httpStatus = 400 ∧
      (pgCreate db b qfail).queries = 0 ∧
      (pgCreate db b qfail).db.rows = db.rows) ∧
    (truthyOpt b.title = true →
      (mysqlCreate db b qfail).resp.errorMsg = some invalidStatusMsg ∧
      (pgCreate db b qfail).resp.errorMsg = some invalidStatusMsg) := by
  have hg : statusGuardFails b.status = true := by
    rw [hv]; simp [statusGuardFails, ht, hbad]
  refine ⟨?_, ?_, fun hT => ?_⟩
  · by_cases hT : truthyOpt b.title = true <;>
      simp [mysqlCreate, hg, hT, valErrResp, Response.base]
  · by_cases hT : truthyOpt b.title = true <;>
      simp [pgCreate, hg, hT, valErrResp, Response.base]
  · simp [mysqlCreate, pgCreate, hg, hT, valErrResp, Response.base]

/-- C6 (witness): the amended rejection at a concrete invalid status. -/
theorem createTruthyInvalidStatusRejected_witness :
    (mysqlCreate db1 invalidStatusCreateBody false).resp.httpStatus = 400 ∧
    (mysqlCreate db1 invalidStatusCreateBody false).queries = 0 ∧
    (mysqlCreate db1 invalidStatusCreateBody false).db.rows = db1.rows :=
  (createTruthyInvalidStatusRejected db1 invalidStatusCreateBody false
    (.jstr "invalid_status") (by decide) (by decide) (by decide)).1

/-- C9: the mode-dependent health endpoint answers 200 exactly when every
probe required by the operating mode succeeds (PostgreSQL alone in
production, both in development), 503 otherwise, and names each backend
connected or disconnected according to its own probe. -/
theorem healthStatusMatchesRequiredProbes (p m g : Bool) :
    ((checkHealth p m g).httpStatus = 200 ↔
      (if p = true then g = true else m = true ∧ g = true)) ∧
    ((checkHealth p m g).httpStatus = 503 ↔
      ¬(if p = true then g = true else m = true ∧ g = true)) ∧
    ((checkHealth p m g).mysqlField = "connected" ↔ m = true) ∧
    ((checkHealth p m g).mysqlField = "disconnected" ↔ m = false) ∧
    ((checkHealth p m g).postgresField = "connected" ↔ g = true) ∧
    ((checkHealth p m g).postgresField = "disconnected" ↔ g = false) ∧
    ((checkHealth p m g).overall = "healthy" ↔
      (checkHealth p m g).httpStatus = 200) := by
  cases p <;> cases m <;> cases g <;> decide

/-- C10: a POST whose title is absent or falsy (empty string, null, 0,
false) is answered 400 "Title is required" with no pool call on both
backends, identically to a request without a title field. -/
theorem falsyTitleRejectedLikeMissing
    (db : Db) (b : ReqBody) (qfail : Bool)
    (h : truthyOpt b.title = false) :
    mysqlCreate db b qfail = ⟨valErrResp "Title is required", db, 0⟩ ∧
    pgCreate db b qfail = ⟨valErrResp "Title is required", db, 0⟩ ∧
    mysqlCreate db b qfail =
      mysqlCreate db { b with title := none } qfail ∧
    pgCreate db b qfail = pgCreate db { b with title := none } qfail := by
  have h0 : truthyOpt (none : Option JVal) = false := rfl
  refine ⟨?_, ?_, ?_, ?_⟩ <;> simp [mysqlCreate, pgCreate, h, h0]

/-- C10 (witness): an empty-string title is rejected like a missing
one. -/
theorem falsyTitleRejectedLikeMissing_witness :
    mysqlCreate db1 falsyTitleBody false =
      ⟨valErrResp "Title is required", db1, 0⟩ ∧
    pgCreate db1 falsyTitleBody false =
      ⟨valErrResp "Title is required", db1, 0⟩ :=
  ⟨(falsyTitleRejectedLikeMissing db1 falsyTitleBody false (by decide)).1,
   (falsyTitleRejectedLikeMissing db1 falsyTitleBody false (by decide)).2.1⟩

/-- C7: with a valid (truthy) title, an omitted status makes the created
row's status `pending` and an omitted description makes it null, on both
backends; and every accepted create answers 201 whose `data` is exactly
the inserted row, with backend-assigned id and equal timestamps. -/
theorem createDefaultsPendingAndNullDescription
    (db : Db) (tv : JVal) (dv sv : Option JVal)
    (ht : truthy tv = true) (hs : statusGuardFails sv = false) :
    ((mysqlCreate db ⟨some tv, dv, none⟩ false).resp.dataTask.map
        (fun t => t.status) = some (.jstr "pending") ∧
      (pgCreate db ⟨some tv, dv, none⟩ false).resp.dataTask.map
        (fun t => t.status) = some (.jstr "pending")) ∧
    ((mysqlCreate db ⟨some tv, none, sv⟩ false).resp.dataTask.map
        (fun t => t.description) = some .jnull ∧
      (pgCreate db ⟨some tv, none, sv⟩ false).resp.dataTask.map
        (fun t => t.description) = some .jnull) ∧
    (∀ b : ReqBody, b.title = some tv → statusGuardFails b.status = false →
      (mysqlCreate db b false).resp.httpStatus = 201 ∧
      (mysqlCreate db b false).resp.dataTask = some (newTask db b) ∧
      (mysqlCreate db b false).db.rows = db.rows ++ [newTask db b] ∧
      (newTask db b).id = db.nextId ∧
      (newTask db b).created_at = db.clock ∧
      (newTask db b).updated_at = db.clock ∧
      (pgCreate db b false).resp = (mysqlCreate db b false).resp ∧
      (pgCreate db b false).db = (mysqlCreate db b false).db) := by
  have h0 : statusGuardFails (none : Option JVal) = false := rfl
  refine ⟨⟨?_, ?_⟩, ⟨?_, ?_⟩, fun b hb hsb => ?_⟩
  · simp [mysqlCreate, truthyOpt, ht, h0, createdResp, newTask, jsOrElse,
          Response.base]
  · simp [pgCreate, truthyOpt, ht, h0, createdResp, newTask, jsOrElse,
          Response.base]
  · simp [mysqlCreate, truthyOpt, ht, hs, createdResp, newTask, jsOrElse,
          Response.base]
  · simp [pgCreate, truthyOpt, ht, hs, createdResp, newTask, jsOrElse,
          Response.base]
  · simp [mysqlCreate, pgCreate, truthyOpt, hb, ht, hsb, createdResp,
          newTask, Db.insertTask, Response.base]

/-- C7 (witness): `POST {title: "Buy milk"}` creates a pending task with
null description. -/
theorem createDefaultsPendingAndNullDescription_witness :
    (mysqlCreate db1 buyMilkBody false).resp.dataTask.map
        (fun t => t.status) = some (.jstr "pending") ∧
    (mysqlCreate db1 buyMilkBody false).resp.dataTask.map
        (fun t => t.description) = some .jnull :=
  ⟨(createDefaultsPendingAndNullDescription db1 (.jstr "Buy milk") none none
      (by decide) (by decide)).1.1,
   (createDefaultsPendingAndNullDescription db1 (.jstr "Buy milk") none none
      (by decide) (by decide)).2.1.1⟩

/-- C8: `listAll` returns a permutation of the table (so every task, and
the empty sequence on an empty table), and any task created strictly
later — with a larger `created_at` — appears strictly before any earlier
one. -/
theorem listAllOrderedByCreatedAtDesc
    (db : Db) (a b : Task)
    (ha : a ∈ db.rows) (hb : b ∈ db.rows)
    (hlt : a.created_at < b.created_at) :
    (listAll db).Perm db.rows ∧
    (listAll db).indexOf b < (listAll db).indexOf a := by
  have hperm : (listAll db).Perm db.rows :=
    List.perm_insertionSort createdGE db.rows
  refine ⟨hperm, ?_⟩
  have hsorted : (listAll db).Sorted createdGE :=
    List.sorted_insertionSort createdGE db.rows
  have ha' : a ∈ listAll db := hperm.mem_iff.mpr ha
  have hb' : b ∈ listAll db := hperm.mem_iff.mpr hb
  have hal : (listAll db).indexOf a < (listAll db).length :=
    List.indexOf_lt_length.mpr ha'
  have hbl : (listAll db).indexOf b < (listAll db).length :=
    List.indexOf_lt_length.mpr hb'
  by_contra hcon
  have hle : (listAll db).indexOf a ≤ (listAll db).indexOf b :=
    Nat.not_lt.mp hcon
  rcases lt_or_eq_of_le hle with hlt2 | heq
  · have hrel := hsorted.rel_get_of_lt
      (a := ⟨(listAll db).indexOf a, hal⟩)
      (b := ⟨(listAll db).indexOf b, hbl⟩) (Fin.mk_lt_mk.mpr hlt2)
    rw [List.indexOf_get hal, List.indexOf_get hbl] at hrel
    have hba : b.created_at ≤ a.created_at := hrel
    exact absurd hlt (Nat.not_lt.mpr hba)
  · have hab : a = b := (List.indexOf_inj ha' hb').mp heq
    rw [hab] at hlt
    exact Nat.lt_irrefl _ hlt

/-- C8 (witness): in the two-row table, `task2` (created later) is listed
before `task1`. -/
theorem listAllOrderedByCreatedAtDesc_witness :
    (listAll db2).Perm db2.rows ∧
    (listAll db2).indexOf task2 < (listAll db2).indexOf task1 :=
  listAllOrderedByCreatedAtDesc db2 task1 task2
    (by decide) (by decide) (by decide)

end NodeTasks
